import Mathlib

/-!
Verification of the agentregistry-inventory conformance harness.

The harness is a black-box test suite for a remote "master agent" service:
  - src/evals/conftest.py        : config resolution, session health gate, shared client
  - src/evals/test_http_events.py: HTTP event submission / convergence / validation scenarios
  - src/test_mcp.py              : standalone MCP tool-call probe
  - src/evals/master_agent/agent.py : remote A2A agent wrapper (config only)

We embed the JSON wire values, the configuration resolution, each test
scenario as an explicit script of effects (POST / sleep / GET) together with
its assertion predicates on the JSON responses, the health-gate control flow,
and the probe functions, and prove the specified properties about them.
-/

/-- JSON values as exchanged with the service. Numbers in the harness's
assertions are integral counters, so we model them as `Int`. -/
inductive Json where
  | null
  | bool (b : Bool)
  | num (n : Int)
  | str (s : String)
  | arr (elems : List Json)
  | obj (fields : List (String × Json))

/-- First-match lookup in a JSON object's field list (Python dict indexing). -/
def lookupField : List (String × Json) → String → Option Json
  | [], _ => none
  | (k, v) :: rest, key => if k == key then some v else lookupField rest key

/-- `j[key]` on a JSON value: defined only on objects. -/
def jGet : Json → String → Option Json
  | .obj fields, key => lookupField fields key
  | _, _ => none

/-- Extract a boolean JSON value. -/
def asBool : Json → Option Bool
  | .bool b => some b
  | _ => none

/-- Extract a numeric JSON value. -/
def asNum : Json → Option Int
  | .num n => some n
  | _ => none

/-! ## Configuration resolution (conftest.py, agent.py, test_mcp.py) -/

/-- The process environment: variable name to value, absent when unset. -/
def Env : Type := String → Option String

/-- Python `os.getenv(name, default)`. -/
def getenvD (env : Env) (name default : String) : String :=
  match env name with
  | some v => v
  | none => default

namespace Conftest

/-- conftest.py line 9: `API_URL = os.getenv("MASTER_AGENT_API_URL", "http://localhost:8080")`. -/
def API_URL (env : Env) : String :=
  getenvD env "MASTER_AGENT_API_URL" "http://localhost:8080"

/-- conftest.py line 10: `A2A_URL = os.getenv("MASTER_AGENT_A2A_URL", "http://localhost:8084")`. -/
def A2A_URL (env : Env) : String :=
  getenvD env "MASTER_AGENT_A2A_URL" "http://localhost:8084"

end Conftest

namespace MasterAgent

/-- agent.py line 7: `A2A_URL = os.getenv("MASTER_AGENT_A2A_URL", "http://localhost:8084")`. -/
def A2A_URL (env : Env) : String :=
  getenvD env "MASTER_AGENT_A2A_URL" "http://localhost:8084"

end MasterAgent

/-- test_mcp.py line 8: `MCP_URL = "http://localhost:8083"` — a constant,
not resolved from the environment. -/
def MCP_URL : String := "http://localhost:8083"

/-! ## Test scripts: the externally visible effects of each scenario -/

/-- One effect performed by a scenario, in program order: an event
submission (POST with a JSON body), a status fetch (GET), or a fixed
blocking sleep of the given number of seconds. -/
inductive HAction where
  | post (path : String) (body : Json)
  | get (path : String)
  | sleep (seconds : Nat)

/-- Whether an action is a sleep. -/
def isSleepA : HAction → Bool
  | .sleep _ => true
  | _ => false

/-- Whether an action is a GET. -/
def isGetA : HAction → Bool
  | .get _ => true
  | _ => false

/-- Whether an action is a POST. -/
def isPostA : HAction → Bool
  | .post _ _ => true
  | _ => false

/-- test_http_events.py line 9: the fixed convergence wait window. -/
def PROCESS_WAIT_SECONDS : Nat := 15

/-- Payload of `test_push_critical_event`; `eid` is the per-run unique token
`eval-{uuid4.hex[:8]}`. -/
def critical_event_payload (eid : String) : Json :=
  .obj [("source", .str "k8s/pod/production/nginx-eval"),
        ("type", .str "pod-crash"),
        ("severity", .str "critical"),
        ("message", .str ("Pod nginx-eval in production is CrashLoopBackOff (eval " ++ eid ++ ")"))]

/-- Payload of `test_push_event_updates_status`. -/
def node_pressure_payload : Json :=
  .obj [("source", .str "k8s/node/worker-eval-1"),
        ("type", .str "node-pressure"),
        ("severity", .str "warning"),
        ("message", .str "Node worker-eval-1 is experiencing memory pressure")]

/-- Payload of `test_push_critical_creates_incident`; `src` is the per-run
unique source `k8s/pod/staging/api-eval-{uuid4.hex[:6]}` and `podName` its
last path segment. -/
def incident_event_payload (src podName : String) : Json :=
  .obj [("source", .str src),
        ("type", .str "pod-crash"),
        ("severity", .str "critical"),
        ("message", .str ("Pod " ++ podName ++ " in staging is OOMKilled"))]

/-- Payload of `test_queue_depth_decreases`. -/
def drain_event_payload : Json :=
  .obj [("source", .str "k8s/pod/default/drain-test"),
        ("type", .str "pod-restart"),
        ("severity", .str "info"),
        ("message", .str "Pod drain-test restarted")]

/-- Payload of `test_missing_required_fields`: only `source`, no `type` or
`message`. -/
def missing_fields_payload : Json :=
  .obj [("source", .str "test")]

/-- Payload of `test_empty_message`: empty `message` string. -/
def empty_message_payload : Json :=
  .obj [("source", .str "test"),
        ("type", .str "test"),
        ("message", .str "")]

/-- Effects of `test_push_critical_event` (lines 15-30): a single POST and
no waiting — its assertions run immediately on the response. -/
def test_push_critical_event_actions (eid : String) : List HAction :=
  [.post "/v0/agent/events" (critical_event_payload eid)]

/-- Effects of `test_push_event_updates_status` (lines 32-51): POST, one
fixed sleep, one status GET. -/
def test_push_event_updates_status_actions : List HAction :=
  [.post "/v0/agent/events" node_pressure_payload,
   .sleep PROCESS_WAIT_SECONDS,
   .get "/v0/agent/status"]

/-- Effects of `test_push_critical_creates_incident` (lines 53-75). -/
def test_push_critical_creates_incident_actions (src podName : String) : List HAction :=
  [.post "/v0/agent/events" (incident_event_payload src podName),
   .sleep PROCESS_WAIT_SECONDS,
   .get "/v0/agent/status"]

/-- Effects of `test_queue_depth_decreases` (lines 77-96). -/
def test_queue_depth_decreases_actions : List HAction :=
  [.post "/v0/agent/events" drain_event_payload,
   .sleep PROCESS_WAIT_SECONDS,
   .get "/v0/agent/status"]

/-- Effects of `test_missing_required_fields` (lines 103-111). -/
def test_missing_required_fields_actions : List HAction :=
  [.post "/v0/agent/events" missing_fields_payload]

/-- Effects of `test_empty_message` (lines 113-121). -/
def test_empty_message_actions : List HAction :=
  [.post "/v0/agent/events" empty_message_payload]

/-- The six tests of test_http_events.py in file (and pytest execution)
order, each as its effect script. -/
def httpEventsModule (eid src podName : String) : List (List HAction) :=
  [test_push_critical_event_actions eid,
   test_push_event_updates_status_actions,
   test_push_critical_creates_incident_actions src podName,
   test_queue_depth_decreases_actions,
   test_missing_required_fields_actions,
   test_empty_message_actions]

/-- Number of event submissions (POSTs) in a script. -/
def countPosts (actions : List HAction) : Nat :=
  (actions.filter isPostA).length

/-! ## Snapshot and acknowledgement field extractors -/

/-- `body["queued"]` as a boolean (`body["queued"] is True` compares with it). -/
def queuedOf (body : Json) : Option Bool :=
  jGet body "queued" >>= asBool

/-- `status["running"]` as a boolean. -/
def runningOf (status : Json) : Option Bool :=
  jGet status "running" >>= asBool

/-- `status["worldState"]["totalEvents"]` as a number. -/
def totalEventsOf (status : Json) : Option Int :=
  jGet status "worldState" >>= fun w => jGet w "totalEvents" >>= asNum

/-- `status["worldState"]["activeIncidents"]` as a number. -/
def activeIncidentsOf (status : Json) : Option Int :=
  jGet status "worldState" >>= fun w => jGet w "activeIncidents" >>= asNum

/-- `status.get("incidents", [])`: the incident list, empty when the key is
absent or not an array. -/
def incidentsListOf (status : Json) : List Json :=
  match jGet status "incidents" with
  | some (.arr xs) => xs
  | _ => []

/-- `status["queue"]["depth"]` as a number. -/
def queueDepthOf (status : Json) : Option Int :=
  jGet status "queue" >>= fun q => jGet q "depth" >>= asNum

/-- `status["queue"]["total"]` as a number. -/
def queueTotalOf (status : Json) : Option Int :=
  jGet status "queue" >>= fun q => jGet q "total" >>= asNum

/-! ## Assertion predicates of the HTTP scenarios

Each predicate is `true` exactly when every `assert` of the corresponding
test body passes (a missing or wrongly-typed field makes the Python
assertion or indexing fail, so it maps to `false`). -/

/-- Assertions of `test_push_critical_event` (lines 26-29): status 200,
`body["queued"] is True`, `"id" in body` — immediate, on the response. -/
def test_push_critical_event_assert (respStatus : Nat) (body : Json) : Bool :=
  respStatus == 200 &&
  queuedOf body == some true &&
  (jGet body "id").isSome

/-- Acknowledgement assertions of `test_push_event_updates_status`
(lines 42-43), checked before the sleep. -/
def test_push_event_updates_status_ack_assert (respStatus : Nat) (body : Json) : Bool :=
  respStatus == 200 && queuedOf body == some true

/-- Snapshot assertions of `test_push_event_updates_status` (lines 49-51):
`running is True` and `totalEvents >= 1`. -/
def test_push_event_updates_status_assert (status : Json) : Bool :=
  runningOf status == some true &&
  (match totalEventsOf status with
   | some n => decide (1 ≤ n)
   | none => false)

/-- Acknowledgement assertion of `test_push_critical_creates_incident`
(line 64), checked before the sleep. -/
def test_push_critical_creates_incident_ack_assert (respStatus : Nat) : Bool :=
  respStatus == 200

/-- Snapshot assertions of `test_push_critical_creates_incident`
(lines 70-75): `activeIncidents >= 1` and `len(incidents) >= 1`. -/
def test_push_critical_creates_incident_assert (status : Json) : Bool :=
  (match activeIncidentsOf status with
   | some n => decide (1 ≤ n)
   | none => false) &&
  decide (1 ≤ (incidentsListOf status).length)

/-- Snapshot assertions of `test_queue_depth_decreases` (lines 94-96):
`queue.depth <= 1` and `queue.total >= 1`. -/
def test_queue_depth_decreases_assert (status : Json) : Bool :=
  (match queueDepthOf status with
   | some d => decide (d ≤ 1)
   | none => false) &&
  (match queueTotalOf status with
   | some t => decide (1 ≤ t)
   | none => false)

/-- Assertion of `test_missing_required_fields` (line 111):
`resp.status_code >= 400`. -/
def test_missing_required_fields_assert (respStatus : Nat) : Bool :=
  400 ≤ respStatus

/-- Assertion of `test_empty_message` (line 121): `resp.status_code >= 400`. -/
def test_empty_message_assert (respStatus : Nat) : Bool :=
  400 ≤ respStatus

/-- Well-formedness of an Event, stated from the spec's data-model words
(section 3): `source`, `type`, and a non-empty `message` are mandatory.
Used to relate the validation scenarios' payloads to the spec's rejection
contract. -/
def specWellFormedEvent (e : Json) : Prop :=
  (∃ s, jGet e "source" = some (.str s)) ∧
  (∃ t, jGet e "type" = some (.str t)) ∧
  (∃ m, jGet e "message" = some (.str m) ∧ m ≠ "")

/-! ## Health gate (conftest.py lines 23-30) and session semantics -/

/-- The httpx exceptions distinguished by the health gate, plus a case for
every other exception. -/
inductive HttpxError where
  | connectError (msg : String)
  | timeoutException (msg : String)
  | httpStatusError (code : Nat)
  | otherError (msg : String)

/-- Python `str(exc)` for the modelled exceptions. -/
def excStr : HttpxError → String
  | .connectError m => m
  | .timeoutException m => m
  | .httpStatusError c => "HTTP status error " ++ toString c
  | .otherError m => m

/-- httpx `Response.raise_for_status`: raises `HTTPStatusError` unless the
status is a 2xx success. -/
def raise_for_status (code : Nat) : Except HttpxError Unit :=
  if 200 ≤ code ∧ code ≤ 299 then .ok () else .error (.httpStatusError code)

/-- Outcome of the session gate: proceed, or skip the whole session with a
diagnostic message. -/
inductive GateResult where
  | proceed
  | skip (msg : String)

/-- The skip diagnostic of conftest.py line 30:
`f"Master agent not reachable at {API_URL}: {exc}"`. -/
def unreachable_message (env : Env) (e : HttpxError) : String :=
  "Master agent not reachable at " ++ Conftest.API_URL env ++ ": " ++ excStr e

/-- conftest.py lines 23-30, `check_agent_health`: run the probe (the GET
plus `raise_for_status`); convert a connection error, a timeout, or an HTTP
status error into a session skip carrying the diagnostic; re-raise anything
else. `probe` is the outcome of `httpx.get(f"{API_URL}/v0/agent/status",
timeout=5)`: the response status, or the exception it raised. -/
def check_agent_health (env : Env) (probe : Except HttpxError Nat) :
    Except HttpxError GateResult :=
  match probe >>= raise_for_status with
  | .ok () => .ok .proceed
  | .error e =>
    match e with
    | .connectError m => .ok (.skip (unreachable_message env (.connectError m)))
    | .timeoutException m => .ok (.skip (unreachable_message env (.timeoutException m)))
    | .httpStatusError c => .ok (.skip (unreachable_message env (.httpStatusError c)))
    | .otherError m => .error (.otherError m)

/-- The health probe request: URL and timeout of conftest.py line 25. -/
def health_probe_request (env : Env) : String × Nat :=
  (Conftest.API_URL env ++ "/v0/agent/status", 5)

/-- The shared session client configuration: base URL and timeout of
conftest.py line 36. -/
def http_client_config (env : Env) : String × Nat :=
  (Conftest.API_URL env, 30)

/-- How a test is reported by the runner. -/
inductive TestReport where
  | passed
  | failed
  | skipped (msg : String)

/-- Session semantics of the autouse session-scoped gate fixture: the gate
outcome is computed once and applies to every collected test; when it skips,
every test is reported skipped with the gate's single message, and no test
body runs. -/
def runSession (gate : GateResult) (tests : List Bool) : List TestReport :=
  match gate with
  | .skip m => tests.map fun _ => .skipped m
  | .proceed => tests.map fun ok => if ok then .passed else .failed

/-- Number of failures in a session report. -/
def countFailures (reports : List TestReport) : Nat :=
  (reports.filter fun r => match r with | .failed => true | _ => false).length

/-! ## Protocol-level probe (test_mcp.py) -/

/-- Whether the first character list is an initial segment of the second. -/
def charsPre : List Char → List Char → Bool
  | [], _ => true
  | _ :: _, [] => false
  | a :: as, b :: bs => a == b && charsPre as bs

/-- Whether the first character list occurs contiguously in the second. -/
def charsSub (n : List Char) : List Char → Bool
  | [] => charsPre n []
  | b :: t => charsPre n (b :: t) || charsSub n t

/-- Python `needle in hay` on strings: contiguous substring containment. -/
def strContains (needle hay : String) : Bool :=
  charsSub needle.toList hay.toList

/-- What the probe prints, kept structured rather than rendered: the
success mark with the dumped JSON, the error mark with status code and the
raw response text, the tool count, or one tool's name-and-description line. -/
inductive OutputLine where
  | successDump (result : Json)
  | errorStatus (code : Nat)
  | rawBody (text : String)
  | foundCount (n : Nat)
  | toolLine (name : String) (descr : Json)

/-- test_mcp.py lines 33-41, the response handling of `call_mcp_tool`:
on status 200 print the success mark and the parsed JSON and return it;
otherwise print the status code and the raw body text and return `None`.
`respJson` is `response.json()` and `respText` is `response.text`. -/
def call_mcp_tool (status : Nat) (respJson : Json) (respText : String) :
    List OutputLine × Option Json :=
  if status == 200 then
    ([.successDump respJson], some respJson)
  else
    ([.errorStatus status, .rawBody respText], none)

/-- `tool.get("description", "No description")`. -/
def descrOf (tool : Json) : Json :=
  (jGet tool "description").getD (.str "No description")

/-- The display decision of test_mcp.py lines 67-69 for one tool: printed
only when `"master" in tool["name"] or "event" in tool["name"]`. A tool
whose `name` is not a string makes the Python loop raise; such tools
produce no line here. -/
def toolDisplayFn (tool : Json) : Option OutputLine :=
  match jGet tool "name" with
  | some (.str n) =>
    if strContains "master" n || strContains "event" n then
      some (.toolLine n (descrOf tool))
    else
      none
  | _ => none

/-- The tool lines printed by the `for tool in tools` loop. -/
def toolDisplayLines (tools : List Json) : List OutputLine :=
  tools.filterMap toolDisplayFn

/-- test_mcp.py lines 62-74, the response handling of `list_tools`: on
status 200, when the parsed JSON has `result.tools`, print the count and
the filtered tool lines; in every 200 case return the complete parsed JSON;
on non-200 print the status code and raw body and return `None`. -/
def list_tools (status : Nat) (respJson : Json) (respText : String) :
    List OutputLine × Option Json :=
  if status == 200 then
    match jGet respJson "result" with
    | some r =>
      match jGet r "tools" with
      | some (.arr tools) =>
        (.foundCount tools.length :: toolDisplayLines tools, some respJson)
      | _ => ([], some respJson)
    | none => ([], some respJson)
  else
    ([.errorStatus status, .rawBody respText], none)

/-! ## Concrete values used to exercise the definitions -/

/-- An environment with no variables set. -/
def env0 : Env := fun _ => none

/-- An environment that overrides only the primary API URL. -/
def env1 : Env := fun name =>
  if name == "MASTER_AGENT_API_URL" then some "http://agent.internal:9090" else none

/-- A status snapshot with one incident and two active incidents. -/
def sampleIncidentSnapshot : Json :=
  .obj [("running", .bool true),
        ("worldState", .obj [("activeIncidents", .num 2), ("totalEvents", .num 7)]),
        ("incidents", .arr [.obj [("id", .str "inc-1")]])]

/-- A status snapshot with three processed events and no incidents. -/
def sampleStatusSnapshot : Json :=
  .obj [("running", .bool true),
        ("worldState", .obj [("totalEvents", .num 3), ("activeIncidents", .num 0)])]

/-- A snapshot whose queue has drained and whose cumulative total is 1. -/
def drainTotalOneSnapshot : Json :=
  .obj [("queue", .obj [("depth", .num 0), ("total", .num 1)])]

/-- A snapshot with residual depth 1 and cumulative total 5. -/
def drainResidualSnapshot : Json :=
  .obj [("queue", .obj [("depth", .num 1), ("total", .num 5)])]

/-- A tools/list response with one matching and one non-matching tool. -/
def sampleToolsResponse : Json :=
  .obj [("jsonrpc", .str "2.0"),
        ("id", .num 1),
        ("result", .obj [("tools", .arr
          [.obj [("name", .str "emit_event"), ("description", .str "Emit an event")],
           .obj [("name", .str "registry_lookup")]])])]

/-! ## Helper lemmas -/

/-- A matched upper-bound check is true exactly when the option holds a
value within the bound. -/
theorem match_le_true (o : Option Int) (b : Int) :
    (match o with | some d => decide (d ≤ b) | none => false) = true ↔
      ∃ d, o = some d ∧ d ≤ b := by
  cases o <;> simp

/-- A matched lower-bound check is true exactly when the option holds a
value at least the bound. -/
theorem match_ge_true (o : Option Int) (b : Int) :
    (match o with | some d => decide (b ≤ d) | none => false) = true ↔
      ∃ d, o = some d ∧ b ≤ d := by
  cases o <;> simp

/-- Characterisation of the per-tool display decision. -/
theorem toolDisplayFn_eq_toolLine (tool : Json) (n : String) (d : Json) :
    toolDisplayFn tool = some (.toolLine n d) ↔
      jGet tool "name" = some (.str n) ∧
      (strContains "master" n || strContains "event" n) = true ∧
      d = descrOf tool := by
  unfold toolDisplayFn
  cases h : jGet tool "name" with
  | none => simp [h]
  | some j =>
    cases j <;> simp only [h, Option.some.injEq, Json.str.injEq] <;>
      first
      | (constructor
         · intro he
           exact absurd he (by simp)
         · rintro ⟨he, -, -⟩
           exact absurd he (by simp))
      | (split
         next hc =>
           simp only [Option.some.injEq, OutputLine.toolLine.injEq]
           constructor
           · rintro ⟨rfl, hd⟩
             exact ⟨rfl, hc, hd.symm⟩
           · rintro ⟨rfl, -, rfl⟩
             exact ⟨rfl, rfl⟩
         next hc =>
           constructor
           · intro he
             exact absurd he (by simp)
           · rintro ⟨rfl, hc2, -⟩
             exact absurd hc2 hc)

/-! ## Claim theorems -/

/-- Claim C3: acknowledgement contract. The critical-event submission test
performs a single POST with no sleep or status fetch, so its assertions hold
immediately on the response, and those assertions are exactly: HTTP status
200, `queued == true` in the body, and a present `id` field. -/
theorem C3_acknowledgement_contract :
    (∀ eid, (test_push_critical_event_actions eid).filter isSleepA = [] ∧
            (test_push_critical_event_actions eid).filter isGetA = [] ∧
            countPosts (test_push_critical_event_actions eid) = 1) ∧
    (∀ respStatus body,
      test_push_critical_event_assert respStatus body = true ↔
        respStatus = 200 ∧ queuedOf body = some true ∧ (jGet body "id").isSome = true) := by
  constructor
  · intro eid
    exact ⟨rfl, rfl, rfl⟩
  · intro respStatus body
    simp [test_push_critical_event_assert, Bool.and_eq_true, beq_iff_eq, and_assoc]

/-- Witness for C3 at a concrete 200 response carrying `queued: true` and an
`id`. -/
theorem C3_acknowledgement_contract_witness :
    test_push_critical_event_assert 200
      (.obj [("queued", .bool true), ("id", .str "evt-42")]) = true :=
  (C3_acknowledgement_contract.2 200
    (.obj [("queued", .bool true), ("id", .str "evt-42")])).mpr ⟨rfl, rfl, rfl⟩

/-- Claim C4: rejection contract. The validation scenarios submit a payload
missing `type` and `message` and a payload with an empty `message` — both
malformed per the spec's Event invariant — and each asserts exactly that the
response status code is in the error range (at least 400), never a specific
code. -/
theorem C4_rejection_contract :
    (jGet missing_fields_payload "type" = none ∧
     jGet missing_fields_payload "message" = none ∧
     ¬ specWellFormedEvent missing_fields_payload) ∧
    (jGet empty_message_payload "message" = some (.str "") ∧
     ¬ specWellFormedEvent empty_message_payload) ∧
    (∀ respStatus,
      test_missing_required_fields_assert respStatus = true ↔ 400 ≤ respStatus) ∧
    (∀ respStatus,
      test_empty_message_assert respStatus = true ↔ 400 ≤ respStatus) := by
  refine ⟨⟨rfl, rfl, ?_⟩, ⟨rfl, ?_⟩, ?_, ?_⟩
  · rintro ⟨-, ⟨t, ht⟩, -⟩
    exact absurd ht (by simp [missing_fields_payload, jGet, lookupField])
  · rintro ⟨-, -, m, hm, hne⟩
    have h0 : (some (Json.str "") : Option Json) = some (.str m) := hm
    injection h0 with h1
    injection h1 with h2
    exact hne h2.symm
  · intro respStatus
    simp [test_missing_required_fields_assert]
  · intro respStatus
    simp [test_empty_message_assert]

/-- Witness for C4 at concrete error-range status codes. -/
theorem C4_rejection_contract_witness :
    test_missing_required_fields_assert 422 = true ∧
    test_empty_message_assert 400 = true :=
  ⟨(C4_rejection_contract.2.2.1 422).mpr (by decide),
   (C4_rejection_contract.2.2.2 400).mpr (by decide)⟩

/-- Claim C8: configuration resolution. The primary API base URL comes from
`MASTER_AGENT_API_URL` with default `http://localhost:8080`; the
streaming/agent-card base URL comes from `MASTER_AGENT_A2A_URL` with default
`http://localhost:8084` (identically in conftest.py and agent.py); the
tool-call probe URL is the constant `http://localhost:8083`, taking no
environment input at all. -/
theorem C8_configuration_resolution :
    (∀ env, env "MASTER_AGENT_API_URL" = none →
       Conftest.API_URL env = "http://localhost:8080") ∧
    (∀ env v, env "MASTER_AGENT_API_URL" = some v → Conftest.API_URL env = v) ∧
    (∀ env, env "MASTER_AGENT_A2A_URL" = none →
       MasterAgent.A2A_URL env = "http://localhost:8084") ∧
    (∀ env v, env "MASTER_AGENT_A2A_URL" = some v → MasterAgent.A2A_URL env = v) ∧
    (∀ env, Conftest.A2A_URL env = MasterAgent.A2A_URL env) ∧
    MCP_URL = "http://localhost:8083" := by
  refine ⟨?_, ?_, ?_, ?_, fun env => rfl, rfl⟩
  · intro env h
    simp [Conftest.API_URL, getenvD, h]
  · intro env v h
    simp [Conftest.API_URL, getenvD, h]
  · intro env h
    simp [MasterAgent.A2A_URL, getenvD, h]
  · intro env v h
    simp [MasterAgent.A2A_URL, getenvD, h]

/-- Witness for C8: the override environment resolves the API URL to its
value, and the A2A URL falls back to its default. -/
theorem C8_configuration_resolution_witness :
    Conftest.API_URL env1 = "http://agent.internal:9090" ∧
    MasterAgent.A2A_URL env1 = "http://localhost:8084" :=
  ⟨C8_configuration_resolution.2.1 env1 "http://agent.internal:9090" rfl,
   C8_configuration_resolution.2.2.1 env1 rfl⟩

/-- Claim C1: critical-severity convergence. The incident scenario submits
an event whose `severity` is `"critical"`, waits the fixed window, fetches
one snapshot, and its snapshot assertion holds exactly when
`worldState.activeIncidents >= 1` and the incident list is non-empty — a
pure lower-bound predicate, so any snapshot with at least those counts
(as under concurrent or repeated runs) satisfies it. -/
theorem C1_critical_incident_lower_bound :
    (∀ src podName,
      jGet (incident_event_payload src podName) "severity" = some (.str "critical")) ∧
    (∀ src podName,
      (test_push_critical_creates_incident_actions src podName).filter
          (fun a => isSleepA a || isGetA a) =
        [.sleep PROCESS_WAIT_SECONDS, .get "/v0/agent/status"]) ∧
    (∀ status,
      test_push_critical_creates_incident_assert status = true ↔
        (∃ n, activeIncidentsOf status = some n ∧ 1 ≤ n) ∧
        incidentsListOf status ≠ []) := by
  refine ⟨fun src podName => rfl, fun src podName => rfl, ?_⟩
  intro status
  rw [test_push_critical_creates_incident_assert, Bool.and_eq_true, match_ge_true]
  simp [Nat.one_le_iff_ne_zero, List.length_eq_zero]

/-- Witness for C1: the assertion accepts a snapshot whose counts exceed the
lower bound. -/
theorem C1_critical_incident_lower_bound_witness :
    test_push_critical_creates_incident_assert sampleIncidentSnapshot = true :=
  (C1_critical_incident_lower_bound.2.2 sampleIncidentSnapshot).mpr
    ⟨⟨2, rfl, by decide⟩, List.cons_ne_nil _ _⟩

/-- Claim C2 counterexample: by the time the drain scenario asserts, the
module run has submitted 4 events (one per preceding scenario plus its own),
yet the coded assertion accepts a snapshot whose cumulative `queue.total` is
1 — so the assertion's bound is the constant 1, not the cumulative number of
events the harness has submitted so far. -/
theorem C2_drain_counterexample :
    test_queue_depth_decreases_assert drainTotalOneSnapshot = true ∧
    ((httpEventsModule "a1b2c3d4" "k8s/pod/staging/api-eval-e5f6a7" "api-eval-e5f6a7").take
        4).foldl (fun acc t => acc + countPosts t) 0 = 4 ∧
    queueTotalOf drainTotalOneSnapshot = some 1 ∧
    ¬ ((1 : Int) ≥ 4) :=
  ⟨rfl, rfl, rfl, by decide⟩

/-- Claim C2 as amended: the drain scenario submits one event, performs the
fixed sleep and one status fetch, and its assertion holds exactly when
`queue.depth <= 1` and `queue.total >= 1` — a constant lower bound of one
(the event this scenario itself submitted), not the harness-wide cumulative
submission count. -/
theorem C2_drain_assertion :
    countPosts test_queue_depth_decreases_actions = 1 ∧
    (test_queue_depth_decreases_actions.filter (fun a => isSleepA a || isGetA a) =
      [.sleep PROCESS_WAIT_SECONDS, .get "/v0/agent/status"]) ∧
    (∀ status,
      test_queue_depth_decreases_assert status = true ↔
        (∃ d, queueDepthOf status = some d ∧ d ≤ 1) ∧
        (∃ t, queueTotalOf status = some t ∧ 1 ≤ t)) := by
  refine ⟨rfl, rfl, ?_⟩
  intro status
  rw [test_queue_depth_decreases_assert, Bool.and_eq_true, match_le_true, match_ge_true]

/-- Witness for C2's amended statement: a residual depth of 1 and a larger
cumulative total satisfy the assertion. -/
theorem C2_drain_assertion_witness :
    test_queue_depth_decreases_assert drainResidualSnapshot = true :=
  (C2_drain_assertion.2.2 drainResidualSnapshot).mpr
    ⟨⟨1, rfl, by decide⟩, ⟨5, rfl, by decide⟩⟩

/-- Claim C6: convergence algorithm shape. The wait window is the fixed
15 seconds; each convergence scenario's script contains exactly one sleep,
of that duration, followed by exactly one status fetch (no poll loop); and
the updates-status scenario's snapshot assertion holds exactly when
`running == true` and `worldState.totalEvents >= 1` — an inequality, never
an exact value. -/
theorem C6_convergence_shape :
    PROCESS_WAIT_SECONDS = 15 ∧
    (test_push_event_updates_status_actions.filter (fun a => isSleepA a || isGetA a) =
      [.sleep PROCESS_WAIT_SECONDS, .get "/v0/agent/status"]) ∧
    (∀ src podName,
      (test_push_critical_creates_incident_actions src podName).filter
          (fun a => isSleepA a || isGetA a) =
        [.sleep PROCESS_WAIT_SECONDS, .get "/v0/agent/status"]) ∧
    (test_queue_depth_decreases_actions.filter (fun a => isSleepA a || isGetA a) =
      [.sleep PROCESS_WAIT_SECONDS, .get "/v0/agent/status"]) ∧
    (∀ status,
      test_push_event_updates_status_assert status = true ↔
        runningOf status = some true ∧ ∃ n, totalEventsOf status = some n ∧ 1 ≤ n) := by
  refine ⟨rfl, rfl, fun src podName => rfl, rfl, ?_⟩
  intro status
  rw [test_push_event_updates_status_assert, Bool.and_eq_true, match_ge_true]
  simp [beq_iff_eq]

/-- Witness for C6: the snapshot assertion accepts a running snapshot with
three processed events. -/
theorem C6_convergence_shape_witness :
    test_push_event_updates_status_assert sampleStatusSnapshot = true :=
  (C6_convergence_shape.2.2.2.2 sampleStatusSnapshot).mpr ⟨rfl, 3, rfl, by decide⟩

/-- Claim C5: health-gate skip semantics. A connection error, a timeout, or
a non-success probe status each turn the single session gate into a skip
whose diagnostic is the fixed text naming the configured base URL and
embedding the failure; a skipping gate makes every test of the session
report skipped with that one message and zero failures. -/
theorem C5_health_gate_skip :
    (∀ env m, check_agent_health env (.error (.connectError m)) =
       .ok (.skip (unreachable_message env (.connectError m)))) ∧
    (∀ env m, check_agent_health env (.error (.timeoutException m)) =
       .ok (.skip (unreachable_message env (.timeoutException m)))) ∧
    (∀ env code, ¬ (200 ≤ code ∧ code ≤ 299) →
       check_agent_health env (.ok code) =
         .ok (.skip (unreachable_message env (.httpStatusError code)))) ∧
    (∀ env code, 200 ≤ code → code ≤ 299 →
       check_agent_health env (.ok code) = .ok .proceed) ∧
    (∀ env e, unreachable_message env e =
       "Master agent not reachable at " ++ Conftest.API_URL env ++ ": " ++ excStr e) ∧
    (∀ msg tests, runSession (.skip msg) tests = tests.map fun _ => .skipped msg) ∧
    (∀ msg tests, countFailures (runSession (.skip msg) tests) = 0) := by
  refine ⟨fun env m => rfl, fun env m => rfl, ?_, ?_, fun env e => rfl,
    fun msg tests => rfl, ?_⟩
  · intro env code h
    simp [check_agent_health, raise_for_status, Bind.bind, Except.bind, h]
  · intro env code h1 h2
    simp [check_agent_health, raise_for_status, Bind.bind, Except.bind, h1, h2]
  · intro msg tests
    induction tests with
    | nil => rfl
    | cons t ts ih => simp [runSession, countFailures, List.filter]

/-- Witness for C5: against the default environment, a 503 probe response
skips with the diagnostic naming the default URL. -/
theorem C5_health_gate_skip_witness :
    check_agent_health env0 (.ok 503) =
      .ok (.skip (unreachable_message env0 (.httpStatusError 503))) ∧
    check_agent_health env0 (.ok 200) = .ok .proceed :=
  ⟨C5_health_gate_skip.2.2.1 env0 503 (by decide),
   C5_health_gate_skip.2.2.2.1 env0 200 (by decide) (by decide)⟩

/-- Claim C9: the health gate converts exactly the three httpx exception
kinds (connection error, timeout, HTTP status error from
`raise_for_status`) into a skip; any other exception propagates unchanged;
the probe uses a 5-second timeout while the shared scenario client uses a
distinct 30-second timeout. -/
theorem C9_health_gate_exception_scope :
    (∀ env, (health_probe_request env).2 = 5) ∧
    (∀ env, (http_client_config env).2 = 30) ∧
    (∀ env, (health_probe_request env).2 ≠ (http_client_config env).2) ∧
    (∀ env m, check_agent_health env (.error (.otherError m)) = .error (.otherError m)) ∧
    (∀ env m, ∃ s, check_agent_health env (.error (.connectError m)) = .ok (.skip s)) ∧
    (∀ env m, ∃ s, check_agent_health env (.error (.timeoutException m)) = .ok (.skip s)) ∧
    (∀ env code, ¬ (200 ≤ code ∧ code ≤ 299) →
       ∃ s, check_agent_health env (.ok code) = .ok (.skip s)) := by
  refine ⟨fun env => rfl, fun env => rfl,
    fun env => by simp [health_probe_request, http_client_config],
    fun env m => rfl, fun env m => ⟨_, rfl⟩, fun env m => ⟨_, rfl⟩, ?_⟩
  intro env code h
  refine ⟨unreachable_message env (.httpStatusError code), ?_⟩
  simp [check_agent_health, raise_for_status, Bind.bind, Except.bind, h]

/-- Witness for C9: an invalid-URL-style exception propagates as an error
while a 500 probe response is converted to a skip. -/
theorem C9_health_gate_exception_scope_witness :
    check_agent_health env0 (.error (.otherError "invalid URL")) =
      .error (.otherError "invalid URL") ∧
    ∃ s, check_agent_health env0 (.ok 500) = .ok (.skip s) :=
  ⟨C9_health_gate_exception_scope.2.2.2.1 env0 "invalid URL",
   C9_health_gate_exception_scope.2.2.2.2.2.2 env0 500 (by decide)⟩

/-- Claim C7: probe graceful degradation. For any non-200 response, both
probe requests print the status code and the raw response body and return
the null result to the caller, with no other outcome. -/
theorem C7_probe_graceful_degradation :
    ∀ status respJson respText, status ≠ 200 →
      call_mcp_tool status respJson respText =
        ([.errorStatus status, .rawBody respText], none) ∧
      list_tools status respJson respText =
        ([.errorStatus status, .rawBody respText], none) := by
  intro status respJson respText h
  constructor
  · simp [call_mcp_tool, beq_iff_eq, h]
  · simp [list_tools, beq_iff_eq, h]

/-- Witness for C7 at a concrete 500 response. -/
theorem C7_probe_graceful_degradation_witness :
    call_mcp_tool 500 .null "internal error" =
      ([.errorStatus 500, .rawBody "internal error"], none) ∧
    list_tools 500 .null "internal error" =
      ([.errorStatus 500, .rawBody "internal error"], none) :=
  C7_probe_graceful_degradation 500 .null "internal error" (by decide)

/-- Claim C10: the tool enumeration's substring filter affects display
only. On a 200 response the returned value is always the complete parsed
JSON, unfiltered; every printed tool line comes from a tool whose name
contains `"master"` or `"event"`; and every tool with such a name is
printed. -/
theorem C10_display_filter_only :
    (∀ respJson respText, (list_tools 200 respJson respText).2 = some respJson) ∧
    (∀ respJson respText r tools n d,
      jGet respJson "result" = some r → jGet r "tools" = some (.arr tools) →
      OutputLine.toolLine n d ∈ (list_tools 200 respJson respText).1 →
        (strContains "master" n || strContains "event" n) = true ∧
        ∃ tool ∈ tools, jGet tool "name" = some (.str n) ∧ d = descrOf tool) ∧
    (∀ respJson respText r tools tool n,
      jGet respJson "result" = some r → jGet r "tools" = some (.arr tools) →
      tool ∈ tools → jGet tool "name" = some (.str n) →
      (strContains "master" n || strContains "event" n) = true →
      OutputLine.toolLine n (descrOf tool) ∈ (list_tools 200 respJson respText).1) := by
  have hlist : ∀ respJson respText r tools,
      jGet respJson "result" = some r → jGet r "tools" = some (.arr tools) →
      (list_tools 200 respJson respText).1 =
        .foundCount tools.length :: toolDisplayLines tools := by
    intro respJson respText r tools hr ht
    simp [list_tools, hr, ht]
  refine ⟨?_, ?_, ?_⟩
  · intro respJson respText
    unfold list_tools
    cases hr : jGet respJson "result" with
    | none => simp [hr]
    | some r =>
      cases ht : jGet r "tools" with
      | none => simp [hr, ht]
      | some x => cases x <;> simp [hr, ht]
  · intro respJson respText r tools n d hr ht hmem
    rw [hlist respJson respText r tools hr ht] at hmem
    rcases List.mem_cons.mp hmem with h | h
    · exact absurd h (by simp)
    · rcases List.mem_filterMap.mp h with ⟨tool, htool, hfn⟩
      rcases (toolDisplayFn_eq_toolLine tool n d).mp hfn with ⟨hn, hc, hd⟩
      exact ⟨hc, tool, htool, hn, hd⟩
  · intro respJson respText r tools tool n hr ht htool hn hc
    rw [hlist respJson respText r tools hr ht]
    exact List.mem_cons_of_mem _
      (List.mem_filterMap.mpr
        ⟨tool, htool, (toolDisplayFn_eq_toolLine tool n (descrOf tool)).mpr ⟨hn, hc, rfl⟩⟩)

/-- Witness for C10: on a concrete response holding a matching and a
non-matching tool, the returned value is the full response and the matching
tool's line is printed. -/
theorem C10_display_filter_only_witness :
    (list_tools 200 sampleToolsResponse "").2 = some sampleToolsResponse ∧
    OutputLine.toolLine "emit_event" (.str "Emit an event") ∈
      (list_tools 200 sampleToolsResponse "").1 :=
  ⟨C10_display_filter_only.1 sampleToolsResponse "",
   C10_display_filter_only.2.2 sampleToolsResponse ""
     (.obj [("tools", .arr
       [.obj [("name", .str "emit_event"), ("description", .str "Emit an event")],
        .obj [("name", .str "registry_lookup")]])])
     [.obj [("name", .str "emit_event"), ("description", .str "Emit an event")],
      .obj [("name", .str "registry_lookup")]]
     (.obj [("name", .str "emit_event"), ("description", .str "Emit an event")])
     "emit_event" rfl rfl (List.mem_cons_self _ _) rfl (by decide)⟩
